import Mathlib

/-!
Shallow embedding of the conversation stage engine of the chat-ai-wizards
repository.

The repository carries three variants of the engine:
* `src/unnamed/part_007` — the in-repo "recreation prompt" holding the full
  engine (booking-slot matching, `pitch_call` stage, email → phone → city
  collection order).  Its `updateUserInfo` is embedded here under that name.
* `supabase/functions/chat-with-ai/index.ts` — the deployed English function;
  its `updateUserInfo` is embedded as `updateUserInfoEn` and the pure
  stage-rewriting switch of its `saveOrUpdateLead` as `saveOrUpdateLeadUpdate`.
* `supabase/functions/chat-with-ai-pt/index.ts` — the Portuguese function;
  its `updateUserInfo` is embedded as `updateUserInfoPt`.

Strings are modelled as Lean `String`s; the JavaScript character classes
(`\s`, `\d`) are modelled on ASCII via `Char.isWhitespace` / `Char.isDigit`,
and `String.prototype.trim` / `toLowerCase` / `includes` are modelled by
`strTrim` / `strLower` / `strContains`.  The three fixed regular expressions
of the source are modelled by dedicated first-match functions
(`emailFirstMatch`, `phoneFirstMatch`, `phoneFirstMatchEn`) implementing
JavaScript's leftmost-greedy matching for those concrete patterns.
-/

/-- Whitespace class of the source regexes (`\s`), ASCII approximation. -/
def isWs (c : Char) : Bool := c.isWhitespace

/-- Model of `String.prototype.trim` on a character list. -/
def trimL (l : List Char) : List Char :=
  ((l.dropWhile isWs).reverse.dropWhile isWs).reverse

/-- Model of `String.prototype.trim`. -/
def strTrim (s : String) : String := ⟨trimL s.toList⟩

/-- Model of `String.prototype.toLowerCase` (ASCII letters). -/
def strLower (s : String) : String := ⟨s.toList.map Char.toLower⟩

/-- Tests whether `hay` starts with `needle` (helper for substring search). -/
def leadingMatch : List Char → List Char → Bool
  | [], _ => true
  | _ :: _, [] => false
  | n :: ns, h :: hs => n = h && leadingMatch ns hs

/-- Model of `String.prototype.includes`: `needle` occurs contiguously in `hay`. -/
def containsSub (hay needle : List Char) : Bool :=
  match hay with
  | [] => leadingMatch needle []
  | c :: t => leadingMatch needle (c :: t) || containsSub t needle

/-- Model of `String.prototype.includes` on `String`. -/
def strContains (hay needle : String) : Bool := containsSub hay.toList needle.toList

/-- Character class `[^\s@]` of the email regex `/[^\s@]+@[^\s@]+\.[^\s@]+/`. -/
def isEmailChar (c : Char) : Bool := !(isWs c) && c ≠ '@'

/-- Attempts to match the email regex `/[^\s@]+@[^\s@]+\.[^\s@]+/` anchored at
the head of `l`, returning the greedily matched text.  The first `[^\s@]+` is
the maximal run before an `@`; the domain part is the maximal run after the
`@`, which matches `[^\s@]+\.[^\s@]+` exactly when it has a dot that is
neither its first nor its last character (backtracking picks the last such
dot, and the final greedy `[^\s@]+` then extends to the end of the run, so
the matched text is the whole run). -/
def emailAt (l : List Char) : Option (List Char) :=
  let loc := l.takeWhile isEmailChar
  match l.drop loc.length with
  | '@' :: rest =>
    if loc = [] then none
    else
      let dom := rest.takeWhile isEmailChar
      if ((dom.drop 1).dropLast).contains '.' then some (loc ++ '@' :: dom)
      else none
  | _ => none

/-- First (leftmost) match of the email regex `/[^\s@]+@[^\s@]+\.[^\s@]+/`,
as returned by `message.match(...)` in the source. -/
def emailFirstMatch : List Char → Option (List Char)
  | [] => none
  | c :: t =>
    match emailAt (c :: t) with
    | some m => some m
    | none => emailFirstMatch t

/-- Leading character class `[+()\d]` of the part_007 phone regex. -/
def isPhoneStart (c : Char) : Bool := c = '+' || c = '(' || c = ')' || c.isDigit

/-- Continuation class `[\d\s().+-]` of the part_007 phone regex. -/
def isPhoneCont (c : Char) : Bool :=
  c.isDigit || isWs c || c = '(' || c = ')' || c = '.' || c = '+' || c = '-'

/-- First match of the part_007 phone regex `/[+()\d][\d\s().+-]{5,}/`: the
leftmost position whose leading character is in `[+()\d]` and whose following
maximal `[\d\s().+-]` run has length at least five; the greedy match is that
character followed by the whole run. -/
def phoneFirstMatch : List Char → Option (List Char)
  | [] => none
  | c :: t =>
    if isPhoneStart c then
      let run := t.takeWhile isPhoneCont
      if 5 ≤ run.length then some (c :: run) else phoneFirstMatch t
    else phoneFirstMatch t

/-- Character class `[\d\s\-\(\)\+]` of the deployed functions' phone regex. -/
def isPhoneCharEn (c : Char) : Bool :=
  c.isDigit || isWs c || c = '-' || c = '(' || c = ')' || c = '+'

/-- First match of the deployed phone regex `/[\d\s\-\(\)\+]+/`: the leftmost
maximal nonempty run of characters from the class. -/
def phoneFirstMatchEn : List Char → Option (List Char)
  | [] => none
  | c :: t =>
    if isPhoneCharEn c then some (c :: t.takeWhile isPhoneCharEn)
    else phoneFirstMatchEn t

/-- JavaScript truthiness of an optional string field (`undefined` and the
empty string are falsy). -/
def strTruthy : Option String → Bool
  | none => false
  | some s => !s.isEmpty

/-- Counts the maximal whitespace runs of a character list; the flag records
whether the previous character was whitespace. -/
def wsRunCount : List Char → Bool → Nat
  | [], _ => 0
  | c :: t, prevWs => (if isWs c && !prevWs then 1 else 0) + wsRunCount t (isWs c)

/-- Model of `s.split(/\s+/).length`: one more than the number of maximal
whitespace runs (JavaScript keeps empty edge pieces). -/
def wsTokens (s : String) : Nat := 1 + wsRunCount s.toList false

/-- Affirmative-intent test of part_007's `updateUserInfo` explaining case:
`/(makes sense|perfect|got it|yes|sure|ok)/i.test(lower)` on the already
lowercased message. -/
def affirmative (lower : String) : Bool :=
  strContains lower "makes sense" || strContains lower "perfect" ||
  strContains lower "got it" || strContains lower "yes" ||
  strContains lower "sure" || strContains lower "ok"

/-- Affirmative test of the deployed English `updateUserInfo` explaining case:
`lowerMessage.includes('yes') || lowerMessage.includes('sure') ||
lowerMessage.includes('okay')`. -/
def affirmativeEn (lower : String) : Bool :=
  strContains lower "yes" || strContains lower "sure" || strContains lower "okay"

/-- Affirmative test of the Portuguese `updateUserInfo` explaining case:
`lowerMessage.includes('sim') || lowerMessage.includes('claro') ||
lowerMessage.includes('ok')`. -/
def affirmativePt (lower : String) : Bool :=
  strContains lower "sim" || strContains lower "claro" || strContains lower "ok"

/-- Model of `updated.proposedDateLabel || 'on the agreed date'` (the empty
string is falsy). -/
def dateLabelOrDefault : Option String → String
  | none => "on the agreed date"
  | some s => if s.isEmpty then "on the agreed date" else s

/-- Slot test of the part_007 booking case: `lower.includes(s.toLowerCase())`. -/
def slotMatches (lower slot : String) : Bool := strContains lower (strLower slot)

/-- Model of `slots.find(s => lower.includes(s.toLowerCase()))`. -/
def pickSlot (lower : String) (slots : List String) : Option String :=
  slots.find? (slotMatches lower)

/-- The `UserInfo` record of the source (all variants); `stage` is kept as a
raw string exactly as in the JavaScript, where the switch statements compare
it against string literals and unknown values fall through. -/
structure UserInfo where
  name : Option String := none
  industry : Option String := none
  email : Option String := none
  phone : Option String := none
  city : Option String := none
  stage : String
  leadId : Option String := none
  proposedSlots : Option (List String) := none
  proposedDateLabel : Option String := none
  appointmentLabel : Option String := none
deriving DecidableEq, Repr

/-- The eleven members of part_007's `ConversationStage` union type. -/
def knownStages : List String :=
  ["greeting", "asking_name", "industry", "explaining", "pitch_call",
   "collecting_name", "collecting_email", "collecting_phone",
   "collecting_city", "booking", "confirmed"]

/-- Position of a stage in the spec's fixed forward ordering
greeting → name-collection (`asking_name`) → industry → explaining →
pitch-call → email-collection → phone-collection → city-collection →
booking → confirmed; `none` for any other value. -/
def stageIdx (s : String) : Option Nat :=
  if s = "greeting" then some 0
  else if s = "asking_name" then some 1
  else if s = "industry" then some 2
  else if s = "explaining" then some 3
  else if s = "pitch_call" then some 4
  else if s = "collecting_email" then some 5
  else if s = "collecting_phone" then some 6
  else if s = "collecting_city" then some 7
  else if s = "booking" then some 8
  else if s = "confirmed" then some 9
  else none

/-- Embedding of `updateUserInfo` from `src/unnamed/part_007` (lines 362-442):
`msg` is the trimmed visitor message, `lower` its lowercasing; the switch on
`currentInfo.stage` is rendered as a chain of string comparisons and a final
fall-through returning the copied state.  The booking case's `if (picked)` is
a JavaScript truthiness test: it fails both when `find` returns `undefined`
(the `none` branch) and when the matched slot is the empty string, so a
matched empty-string slot does not book. -/
def updateUserInfo (currentInfo : UserInfo) (userMessage aiResponse : String) :
    UserInfo :=
  let msg := strTrim userMessage
  let lower := strLower msg
  if currentInfo.stage = "greeting" then
    { currentInfo with stage := "asking_name" }
  else if currentInfo.stage = "asking_name" then
    { currentInfo with
        name := if strTruthy currentInfo.name then currentInfo.name else some msg,
        stage := "industry" }
  else if currentInfo.stage = "industry" then
    { currentInfo with industry := some msg, stage := "explaining" }
  else if currentInfo.stage = "explaining" then
    if affirmative lower then { currentInfo with stage := "pitch_call" }
    else currentInfo
  else if currentInfo.stage = "pitch_call" then
    if strTruthy currentInfo.name && wsTokens (currentInfo.name.getD "") < 2 then
      { currentInfo with
          name := some (strTrim ((currentInfo.name.getD "") ++ " " ++ msg)),
          stage := "collecting_email" }
    else { currentInfo with stage := "collecting_email" }
  else if currentInfo.stage = "collecting_name" then
    if strTruthy currentInfo.name && wsTokens (currentInfo.name.getD "") < 2 then
      { currentInfo with
          name := some (strTrim ((currentInfo.name.getD "") ++ " " ++ msg)),
          stage := "collecting_email" }
    else if strTruthy currentInfo.name then
      { currentInfo with stage := "collecting_email" }
    else
      { currentInfo with name := some msg, stage := "collecting_email" }
  else if currentInfo.stage = "collecting_email" then
    match emailFirstMatch msg.toList with
    | some e => { currentInfo with email := some ⟨e⟩, stage := "collecting_phone" }
    | none => currentInfo
  else if currentInfo.stage = "collecting_phone" then
    match phoneFirstMatch msg.toList with
    | some p => { currentInfo with phone := some ⟨trimL p⟩, stage := "collecting_city" }
    | none => currentInfo
  else if currentInfo.stage = "collecting_city" then
    { currentInfo with city := some msg, stage := "booking" }
  else if currentInfo.stage = "booking" then
    match pickSlot lower (currentInfo.proposedSlots.getD []) with
    | some picked =>
        if picked = "" then currentInfo
        else
          { currentInfo with
              appointmentLabel :=
                some (dateLabelOrDefault currentInfo.proposedDateLabel ++ " at " ++ picked),
              stage := "confirmed" }
    | none => currentInfo
  else currentInfo

/-- Embedding of `updateUserInfo` from
`supabase/functions/chat-with-ai/index.ts` (lines 328-388): the deployed
English flow (phone before email, no slot matching, unconditional
booking → confirmed); the regex matches apply to the untrimmed message. -/
def updateUserInfoEn (currentInfo : UserInfo) (userMessage aiResponse : String) :
    UserInfo :=
  let lowerMessage := strLower userMessage
  if currentInfo.stage = "greeting" then
    { currentInfo with stage := "asking_name" }
  else if currentInfo.stage = "asking_name" then
    { currentInfo with name := some (strTrim userMessage), stage := "industry" }
  else if currentInfo.stage = "industry" then
    { currentInfo with industry := some (strTrim userMessage), stage := "pain_points" }
  else if currentInfo.stage = "pain_points" then
    { currentInfo with stage := "explaining" }
  else if currentInfo.stage = "explaining" then
    if affirmativeEn lowerMessage then { currentInfo with stage := "collecting_phone" }
    else currentInfo
  else if currentInfo.stage = "collecting_phone" then
    match phoneFirstMatchEn userMessage.toList with
    | some p => { currentInfo with phone := some ⟨trimL p⟩, stage := "collecting_email" }
    | none => currentInfo
  else if currentInfo.stage = "collecting_email" then
    match emailFirstMatch userMessage.toList with
    | some e => { currentInfo with email := some ⟨e⟩, stage := "collecting_city" }
    | none => currentInfo
  else if currentInfo.stage = "collecting_city" then
    { currentInfo with city := some (strTrim userMessage), stage := "booking" }
  else if currentInfo.stage = "booking" then
    { currentInfo with stage := "confirmed" }
  else currentInfo

/-- Embedding of `updateUserInfo` from
`supabase/functions/chat-with-ai-pt/index.ts` (lines 157-217): identical to
the English deployed flow except for the affirmative keyword set. -/
def updateUserInfoPt (currentInfo : UserInfo) (userMessage aiResponse : String) :
    UserInfo :=
  let lowerMessage := strLower userMessage
  if currentInfo.stage = "greeting" then
    { currentInfo with stage := "asking_name" }
  else if currentInfo.stage = "asking_name" then
    { currentInfo with name := some (strTrim userMessage), stage := "industry" }
  else if currentInfo.stage = "industry" then
    { currentInfo with industry := some (strTrim userMessage), stage := "pain_points" }
  else if currentInfo.stage = "pain_points" then
    { currentInfo with stage := "explaining" }
  else if currentInfo.stage = "explaining" then
    if affirmativePt lowerMessage then { currentInfo with stage := "collecting_phone" }
    else currentInfo
  else if currentInfo.stage = "collecting_phone" then
    match phoneFirstMatchEn userMessage.toList with
    | some p => { currentInfo with phone := some ⟨trimL p⟩, stage := "collecting_email" }
    | none => currentInfo
  else if currentInfo.stage = "collecting_email" then
    match emailFirstMatch userMessage.toList with
    | some e => { currentInfo with email := some ⟨e⟩, stage := "collecting_city" }
    | none => currentInfo
  else if currentInfo.stage = "collecting_city" then
    { currentInfo with city := some (strTrim userMessage), stage := "booking" }
  else if currentInfo.stage = "booking" then
    { currentInfo with stage := "confirmed" }
  else currentInfo

/-- Embedding of the pure stage-rewriting switch of `saveOrUpdateLead` from
`supabase/functions/chat-with-ai/index.ts` (lines 122-160); the subsequent
database insert/update is external I/O and only fills `leadId`, so it is not
part of the stage rewriting modelled here. -/
def saveOrUpdateLeadUpdate (userInfo : UserInfo) (message : String) : UserInfo :=
  if userInfo.stage = "industry" then
    { userInfo with industry := some (strTrim message), stage := "asking_name" }
  else if userInfo.stage = "asking_name" then
    { userInfo with name := some (strTrim message), stage := "pain_points" }
  else if userInfo.stage = "collecting_phone" then
    match phoneFirstMatchEn message.toList with
    | some p => { userInfo with phone := some ⟨trimL p⟩, stage := "collecting_email" }
    | none => userInfo
  else if userInfo.stage = "collecting_email" then
    match emailFirstMatch message.toList with
    | some e => { userInfo with email := some ⟨e⟩, stage := "collecting_name" }
    | none => userInfo
  else if userInfo.stage = "collecting_name" then
    { userInfo with
        name := if strTruthy userInfo.name then userInfo.name else some (strTrim message),
        stage := "collecting_city" }
  else if userInfo.stage = "collecting_city" then
    { userInfo with city := some (strTrim message), stage := "booking" }
  else userInfo

/-- Embedding of the booking enrichment guard of `serve`
(part_007 lines 216-222, `index.ts` lines 50-55): the random output of
`generateBookingOptions` is passed in as `gen = (dateLabel, slots)`; the
guard fires only when the stage is `booking` and `proposedSlots` is absent
(`undefined`; an empty array is truthy in JavaScript). -/
def enrichBooking (gen : String × List String) (u : UserInfo) : UserInfo :=
  if u.stage = "booking" ∧ u.proposedSlots = none then
    { u with proposedSlots := some gen.2, proposedDateLabel := some gen.1 }
  else u

/-- Sentence-terminal punctuation of the segmenter regex `/(?<=[.!?])\s+/`. -/
def isTerm (c : Char) : Bool := c = '.' || c = '!' || c = '?'

/-- Tests whether the last accumulated character (head of the reversed
accumulator) is sentence-terminal, i.e. the lookbehind `(?<=[.!?])`. -/
def lastIsTerm : List Char → Bool
  | [] => false
  | p :: _ => isTerm p

/-- Model of `message.split(/(?<=[.!?])\s+/)`: a maximal whitespace run
immediately preceded by `.`, `!` or `?` is a separator; `cur` is the reversed
current sentence and `skipping` records that the scanner is inside a
separator run (which is consumed, not kept). -/
def splitSentencesAux (skipping : Bool) (cur : List Char) :
    List Char → List (List Char)
  | [] => [cur.reverse]
  | c :: rest =>
    if skipping then
      if isWs c then splitSentencesAux true [] rest
      else splitSentencesAux false [c] rest
    else if isWs c && lastIsTerm cur then
      cur.reverse :: splitSentencesAux true [] rest
    else splitSentencesAux false (c :: cur) rest

/-- The greedy accumulation loop of `splitLongMessage`: `cur` is the current
message under construction and `lc` its accumulated line count; each
sentence costs `ceil(length / 50)` lines. -/
def segLoop : List (List Char) → List Char → Nat → List (List Char)
  | [], cur, _ => if trimL cur = [] then [] else [trimL cur]
  | s :: rest, cur, lc =>
    if 2 < lc + (s.length + 49) / 50 ∧ ¬ trimL cur = [] then
      trimL cur :: segLoop rest s ((s.length + 49) / 50)
    else
      segLoop rest (cur ++ (if cur = [] then [] else [' ']) ++ s)
        (lc + (s.length + 49) / 50)

/-- Embedding of `splitLongMessage` (part_007 lines 459-483, `index.ts`
lines 390-416): sentence split, greedy two-line accumulation, and the final
`result.length > 1 ? result : [message]` fallback. -/
def splitLongMessage (message : String) : List String :=
  let sentences := splitSentencesAux false [] message.toList
  let res := segLoop sentences [] 0
  if 1 < res.length then res.map (fun l => (⟨l⟩ : String)) else [message]

/-- Modelled from the spec: the number of "non-space significant characters"
of a string, the measure the spec's phone-extraction sentence is stated in
(the source code itself never computes it). -/
def nonSpaceLen (s : String) : Nat := (s.toList.filter (fun c => !(isWs c))).length

/-! Equation lemmas: one per switch case of the embedded transition
functions, obtained by resolving the chain of stage comparisons. -/

lemma uui_greeting (u : UserInfo) (m r : String) (h : u.stage = "greeting") :
    updateUserInfo u m r = { u with stage := "asking_name" } := by
  unfold updateUserInfo; rw [h]; simp

lemma uui_asking_name (u : UserInfo) (m r : String) (h : u.stage = "asking_name") :
    updateUserInfo u m r =
      { u with
          name := if strTruthy u.name then u.name else some (strTrim m),
          stage := "industry" } := by
  unfold updateUserInfo; rw [h]; simp

lemma uui_industry (u : UserInfo) (m r : String) (h : u.stage = "industry") :
    updateUserInfo u m r =
      { u with industry := some (strTrim m), stage := "explaining" } := by
  unfold updateUserInfo; rw [h]; simp

lemma uui_explaining (u : UserInfo) (m r : String) (h : u.stage = "explaining") :
    updateUserInfo u m r =
      if affirmative (strLower (strTrim m)) then { u with stage := "pitch_call" }
      else u := by
  unfold updateUserInfo; rw [h]; simp

lemma uui_pitch_call (u : UserInfo) (m r : String) (h : u.stage = "pitch_call") :
    updateUserInfo u m r =
      if strTruthy u.name && wsTokens (u.name.getD "") < 2 then
        { u with
            name := some (strTrim ((u.name.getD "") ++ " " ++ strTrim m)),
            stage := "collecting_email" }
      else { u with stage := "collecting_email" } := by
  unfold updateUserInfo; rw [h]; simp

lemma uui_collecting_name (u : UserInfo) (m r : String)
    (h : u.stage = "collecting_name") :
    updateUserInfo u m r =
      if strTruthy u.name && wsTokens (u.name.getD "") < 2 then
        { u with
            name := some (strTrim ((u.name.getD "") ++ " " ++ strTrim m)),
            stage := "collecting_email" }
      else if strTruthy u.name then { u with stage := "collecting_email" }
      else { u with name := some (strTrim m), stage := "collecting_email" } := by
  unfold updateUserInfo; rw [h]; simp

lemma uui_collecting_email (u : UserInfo) (m r : String)
    (h : u.stage = "collecting_email") :
    updateUserInfo u m r =
      match emailFirstMatch (strTrim m).toList with
      | some e => { u with email := some ⟨e⟩, stage := "collecting_phone" }
      | none => u := by
  unfold updateUserInfo; rw [h]; simp

lemma uui_collecting_phone (u : UserInfo) (m r : String)
    (h : u.stage = "collecting_phone") :
    updateUserInfo u m r =
      match phoneFirstMatch (strTrim m).toList with
      | some p => { u with phone := some ⟨trimL p⟩, stage := "collecting_city" }
      | none => u := by
  unfold updateUserInfo; rw [h]; simp

lemma uui_collecting_city (u : UserInfo) (m r : String)
    (h : u.stage = "collecting_city") :
    updateUserInfo u m r =
      { u with city := some (strTrim m), stage := "booking" } := by
  unfold updateUserInfo; rw [h]; simp

lemma uui_booking (u : UserInfo) (m r : String) (h : u.stage = "booking") :
    updateUserInfo u m r =
      match pickSlot (strLower (strTrim m)) (u.proposedSlots.getD []) with
      | some picked =>
          if picked = "" then u
          else
            { u with
                appointmentLabel :=
                  some (dateLabelOrDefault u.proposedDateLabel ++ " at " ++ picked),
                stage := "confirmed" }
      | none => u := by
  unfold updateUserInfo; rw [h]; simp

lemma uui_confirmed (u : UserInfo) (m r : String) (h : u.stage = "confirmed") :
    updateUserInfo u m r = u := by
  unfold updateUserInfo; rw [h]; simp

lemma uui_unknown (u : UserInfo) (m r : String) (h : u.stage ∉ knownStages) :
    updateUserInfo u m r = u := by
  simp only [knownStages, List.mem_cons, List.not_mem_nil, or_false, not_or] at h
  obtain ⟨h1, h2, h3, h4, h5, h6, h7, h8, h9, h10, h11⟩ := h
  unfold updateUserInfo
  rw [if_neg h1, if_neg h2, if_neg h3, if_neg h4, if_neg h5, if_neg h6,
    if_neg h7, if_neg h8, if_neg h9, if_neg h10]

lemma uuiEn_explaining (u : UserInfo) (m r : String) (h : u.stage = "explaining") :
    updateUserInfoEn u m r =
      if affirmativeEn (strLower m) then { u with stage := "collecting_phone" }
      else u := by
  unfold updateUserInfoEn; rw [h]; simp

lemma uuiEn_confirmed (u : UserInfo) (m r : String) (h : u.stage = "confirmed") :
    updateUserInfoEn u m r = u := by
  unfold updateUserInfoEn; rw [h]; simp

lemma uuiPt_explaining (u : UserInfo) (m r : String) (h : u.stage = "explaining") :
    updateUserInfoPt u m r =
      if affirmativePt (strLower m) then { u with stage := "collecting_phone" }
      else u := by
  unfold updateUserInfoPt; rw [h]; simp

/-- Frame property of part_007's `updateUserInfo`: no switch case other than
the booking one writes `appointmentLabel`. -/
lemma appointmentLabel_frame (u : UserInfo) (m r : String)
    (h : u.stage ≠ "booking") :
    (updateUserInfo u m r).appointmentLabel = u.appointmentLabel := by
  by_cases h1 : u.stage = "greeting"
  · rw [uui_greeting u m r h1]
  by_cases h2 : u.stage = "asking_name"
  · rw [uui_asking_name u m r h2]
  by_cases h3 : u.stage = "industry"
  · rw [uui_industry u m r h3]
  by_cases h4 : u.stage = "explaining"
  · rw [uui_explaining u m r h4]; split <;> rfl
  by_cases h5 : u.stage = "pitch_call"
  · rw [uui_pitch_call u m r h5]; split <;> rfl
  by_cases h6 : u.stage = "collecting_name"
  · rw [uui_collecting_name u m r h6]; split_ifs <;> rfl
  by_cases h7 : u.stage = "collecting_email"
  · rw [uui_collecting_email u m r h7]; split <;> rfl
  by_cases h8 : u.stage = "collecting_phone"
  · rw [uui_collecting_phone u m r h8]; split <;> rfl
  by_cases h9 : u.stage = "collecting_city"
  · rw [uui_collecting_city u m r h9]
  by_cases h11 : u.stage = "confirmed"
  · rw [uui_confirmed u m r h11]
  rw [uui_unknown u m r ?_]
  simp only [knownStages, List.mem_cons, List.not_mem_nil, or_false, not_or]
  exact ⟨h1, h2, h3, h4, h5, h6, h7, h8, h9, h, h11⟩

/-- Every element pushed by the segmenter's accumulation loop is a trimmed,
nonempty chunk. -/
lemma segLoop_ne_nil :
    ∀ (ss : List (List Char)) (cur : List Char) (lc : Nat),
      ∀ x ∈ segLoop ss cur lc, x ≠ [] := by
  intro ss
  induction ss with
  | nil =>
    intro cur lc x hx
    unfold segLoop at hx
    split at hx
    · simp at hx
    · rw [List.mem_singleton] at hx
      subst hx
      assumption
  | cons s rest ih =>
    intro cur lc x hx
    unfold segLoop at hx
    split at hx
    case isTrue hc =>
      rcases List.mem_cons.mp hx with rfl | hx'
      · exact hc.2
      · exact ih _ _ x hx'
    case isFalse hc => exact ih _ _ x hx

/-- Unfolding of `splitLongMessage` with its local bindings resolved. -/
lemma splitLongMessage_eq (m : String) :
    splitLongMessage m =
      if 1 < (segLoop (splitSentencesAux false [] m.toList) [] 0).length then
        (segLoop (splitSentencesAux false [] m.toList) [] 0).map
          (fun l => (⟨l⟩ : String))
      else [m] := rfl

/-- Two `stageIdx` values of the same stage string agree. -/
lemma stageIdx_inj (i : Nat) {s : String} {q : Nat} (hi : stageIdx s = some i)
    (hq : stageIdx s = some q) : q = i := by
  rw [hi] at hq
  exact (Option.some.inj hq).symm

/-- C1 (amended): for part_007's `updateUserInfo`, whenever both the input
stage and the output stage occupy positions in the fixed ordering
greeting → name-collection → industry → explaining → pitch-call →
email-collection → phone-collection → city-collection → booking → confirmed,
the output position is greater than or equal to the input position: the stage
never regresses under this transition function. -/
theorem c1_stage_monotone (u : UserInfo) (m r : String) (p q : Nat)
    (hp : stageIdx u.stage = some p)
    (hq : stageIdx (updateUserInfo u m r).stage = some q) : p ≤ q := by
  by_cases g0 : u.stage = "greeting"
  · rw [g0] at hp
    have hp' := stageIdx_inj 0 (by decide) hp
    rw [uui_greeting u m r g0] at hq
    have hq' : stageIdx "asking_name" = some q := hq
    have hq2 := stageIdx_inj 1 (by decide) hq'
    omega
  by_cases g1 : u.stage = "asking_name"
  · rw [g1] at hp
    have hp' := stageIdx_inj 1 (by decide) hp
    rw [uui_asking_name u m r g1] at hq
    have hq' : stageIdx "industry" = some q := hq
    have hq2 := stageIdx_inj 2 (by decide) hq'
    omega
  by_cases g2 : u.stage = "industry"
  · rw [g2] at hp
    have hp' := stageIdx_inj 2 (by decide) hp
    rw [uui_industry u m r g2] at hq
    have hq' : stageIdx "explaining" = some q := hq
    have hq2 := stageIdx_inj 3 (by decide) hq'
    omega
  by_cases g3 : u.stage = "explaining"
  · rw [g3] at hp
    have hp' := stageIdx_inj 3 (by decide) hp
    rw [uui_explaining u m r g3] at hq
    split at hq
    · have hq' : stageIdx "pitch_call" = some q := hq
      have hq2 := stageIdx_inj 4 (by decide) hq'
      omega
    · rw [g3] at hq
      have hq2 := stageIdx_inj 3 (by decide) hq
      omega
  by_cases g4 : u.stage = "pitch_call"
  · rw [g4] at hp
    have hp' := stageIdx_inj 4 (by decide) hp
    rw [uui_pitch_call u m r g4] at hq
    split at hq <;>
      { have hq' : stageIdx "collecting_email" = some q := hq
        have hq2 := stageIdx_inj 5 (by decide) hq'
        omega }
  by_cases g5 : u.stage = "collecting_name"
  · rw [g5, show stageIdx "collecting_name" = none from by decide] at hp
    exact Option.noConfusion hp
  by_cases g6 : u.stage = "collecting_email"
  · rw [g6] at hp
    have hp' := stageIdx_inj 5 (by decide) hp
    rw [uui_collecting_email u m r g6] at hq
    split at hq
    · have hq' : stageIdx "collecting_phone" = some q := hq
      have hq2 := stageIdx_inj 6 (by decide) hq'
      omega
    · rw [g6] at hq
      have hq2 := stageIdx_inj 5 (by decide) hq
      omega
  by_cases g7 : u.stage = "collecting_phone"
  · rw [g7] at hp
    have hp' := stageIdx_inj 6 (by decide) hp
    rw [uui_collecting_phone u m r g7] at hq
    split at hq
    · have hq' : stageIdx "collecting_city" = some q := hq
      have hq2 := stageIdx_inj 7 (by decide) hq'
      omega
    · rw [g7] at hq
      have hq2 := stageIdx_inj 6 (by decide) hq
      omega
  by_cases g8 : u.stage = "collecting_city"
  · rw [g8] at hp
    have hp' := stageIdx_inj 7 (by decide) hp
    rw [uui_collecting_city u m r g8] at hq
    have hq' : stageIdx "booking" = some q := hq
    have hq2 := stageIdx_inj 8 (by decide) hq'
    omega
  by_cases g9 : u.stage = "booking"
  · rw [g9] at hp
    have hp' := stageIdx_inj 8 (by decide) hp
    rw [uui_booking u m r g9] at hq
    split at hq
    · split at hq
      · rw [g9] at hq
        have hq2 := stageIdx_inj 8 (by decide) hq
        omega
      · have hq' : stageIdx "confirmed" = some q := hq
        have hq2 := stageIdx_inj 9 (by decide) hq'
        omega
    · rw [g9] at hq
      have hq2 := stageIdx_inj 8 (by decide) hq
      omega
  by_cases g10 : u.stage = "confirmed"
  · rw [g10] at hp
    have hp' := stageIdx_inj 9 (by decide) hp
    rw [uui_confirmed u m r g10, g10] at hq
    have hq2 := stageIdx_inj 9 (by decide) hq
    omega
  exfalso
  unfold stageIdx at hp
  rw [if_neg g0, if_neg g1, if_neg g2, if_neg g3, if_neg g4, if_neg g6,
    if_neg g7, if_neg g8, if_neg g9, if_neg g10] at hp
  exact Option.noConfusion hp

/-- C1 counterexample: the stage rewriting of `saveOrUpdateLead` regresses
the stage ordering: at stage industry (position 2) it rewrites the stage to
asking_name (position 1), so the claimed monotonicity fails for it. -/
theorem c1_counterexample :
    stageIdx (({ stage := "industry" } : UserInfo)).stage = some 2 ∧
    stageIdx (saveOrUpdateLeadUpdate { stage := "industry" } "dentistry").stage
      = some 1 ∧ ¬ (2 ≤ 1) := by decide

/-- C1 witness: a concrete monotone step (greeting advances to name
collection, position 0 to position 1). -/
theorem c1_witness :
    stageIdx (({ stage := "greeting" } : UserInfo)).stage = some 0 ∧
    stageIdx (updateUserInfo { stage := "greeting" } "Hi" "ok").stage = some 1 ∧
    0 ≤ 1 :=
  ⟨by decide, by decide,
    c1_stage_monotone { stage := "greeting" } "Hi" "ok" 0 1 (by decide) (by decide)⟩

/-- C2 (amended): for part_007's `updateUserInfo` in the booking stage, if
the lowercased trimmed message contains one of the proposed slot labels
(case-insensitively, first such slot in list order) and that matched slot is
a non-empty string (the source's `if (picked)` truthiness guard), the new
state carries `appointmentLabel = "{proposedDateLabel} at {matchedSlot}"`
(with the fallback label "on the agreed date" when `proposedDateLabel` is
absent or empty) and stage `confirmed`; when no slot matches, or the matched
slot is the degenerate empty string (falsy), the state is returned
unchanged; and no stage other than booking ever writes `appointmentLabel`.
The deployed English `updateUserInfo` instead advances booking → confirmed
unconditionally without ever setting `appointmentLabel` (see the
counterexample). -/
theorem c2_booking_slot_match (u v : UserInfo) (m r : String) (picked : String) :
    (u.stage = "booking" →
      pickSlot (strLower (strTrim m)) (u.proposedSlots.getD []) = some picked →
      picked ≠ "" →
      updateUserInfo u m r =
        { u with
            appointmentLabel :=
              some (dateLabelOrDefault u.proposedDateLabel ++ " at " ++ picked),
            stage := "confirmed" }) ∧
    (u.stage = "booking" →
      pickSlot (strLower (strTrim m)) (u.proposedSlots.getD []) = none →
      updateUserInfo u m r = u) ∧
    (u.stage = "booking" →
      pickSlot (strLower (strTrim m)) (u.proposedSlots.getD []) = some "" →
      updateUserInfo u m r = u) ∧
    (v.stage ≠ "booking" →
      (updateUserInfo v m r).appointmentLabel = v.appointmentLabel) := by
  refine ⟨?_, ?_, ?_, ?_⟩
  · intro h hs hne
    rw [uui_booking u m r h, hs]
    exact if_neg hne
  · intro h hs
    rw [uui_booking u m r h, hs]
  · intro h hs
    rw [uui_booking u m r h, hs]
    exact if_pos rfl
  · intro h
    exact appointmentLabel_frame v m r h

/-- C2 counterexample: the deployed English transition function, in the
booking stage with proposed slots present and a visitor message matching no
slot, does not hold the state (as the claim requires): it advances to
confirmed anyway, and it leaves `appointmentLabel` unset. -/
theorem c2_counterexample :
    updateUserInfoEn
        { stage := "booking", proposedSlots := some ["10:30am", "2pm"] }
        "maybe later" "r"
      = { stage := "confirmed", proposedSlots := some ["10:30am", "2pm"] } ∧
    ({ stage := "booking", proposedSlots := some ["10:30am", "2pm"] } : UserInfo)
      ≠ { stage := "confirmed", proposedSlots := some ["10:30am", "2pm"] } ∧
    (updateUserInfoEn
        { stage := "booking", proposedSlots := some ["10:30am", "2pm"] }
        "maybe later" "r").appointmentLabel = none := by
  refine ⟨by decide, by decide, by decide⟩

/-- C2 witness: a matching reply books "Friday at 2pm", a non-matching reply
holds the state, a matched empty-string slot (falsy under `if (picked)`)
also holds the state, and a non-booking stage leaves `appointmentLabel`
alone. -/
theorem c2_witness :
    updateUserInfo
        { stage := "booking", proposedSlots := some ["10:30am", "2pm"],
          proposedDateLabel := some "Friday" } "2PM works great" "r"
      = { stage := "confirmed", proposedSlots := some ["10:30am", "2pm"],
          proposedDateLabel := some "Friday",
          appointmentLabel := some "Friday at 2pm" } ∧
    updateUserInfo
        { stage := "booking", proposedSlots := some ["10:30am", "2pm"],
          proposedDateLabel := some "Friday" } "neither works for me" "r"
      = { stage := "booking", proposedSlots := some ["10:30am", "2pm"],
          proposedDateLabel := some "Friday" } ∧
    updateUserInfo { stage := "booking", proposedSlots := some [""] }
        "maybe later" "r"
      = { stage := "booking", proposedSlots := some [""] } ∧
    (updateUserInfo { stage := "greeting" } "hello" "r").appointmentLabel
      = none := by
  refine ⟨?_, ?_, ?_, ?_⟩
  · exact ((c2_booking_slot_match
        { stage := "booking", proposedSlots := some ["10:30am", "2pm"],
          proposedDateLabel := some "Friday" }
        { stage := "greeting" } "2PM works great" "r" "2pm").1
        rfl (by decide) (by decide)).trans (by decide)
  · exact (c2_booking_slot_match
        { stage := "booking", proposedSlots := some ["10:30am", "2pm"],
          proposedDateLabel := some "Friday" }
        { stage := "greeting" } "neither works for me" "r" "2pm").2.1
        rfl (by decide)
  · exact (c2_booking_slot_match
        { stage := "booking", proposedSlots := some [""] }
        { stage := "greeting" } "maybe later" "r" "2pm").2.2.1
        rfl (by decide)
  · exact ((c2_booking_slot_match { stage := "booking" } { stage := "greeting" }
        "hello" "r" "2pm").2.2.2 (by decide)).trans rfl

/-- C3: the booking enrichment step is idempotent and guarded: whenever
`proposedSlots` is already populated, or the stage is not booking, running
the enrichment again returns the state (hence `proposedSlots` and
`proposedDateLabel`) identical and unchanged, for any freshly generated
options `gen`; generation can therefore only happen when the stage is
booking and `proposedSlots` is absent. -/
theorem c3_slot_proposal_idempotent (gen : String × List String) (u : UserInfo)
    (h : u.proposedSlots ≠ none ∨ u.stage ≠ "booking") :
    enrichBooking gen u = u := by
  unfold enrichBooking
  rcases h with h | h
  · rw [if_neg]
    rintro ⟨-, h2⟩
    exact h h2
  · rw [if_neg]
    rintro ⟨h1, -⟩
    exact h h1

/-- C3 witness: re-running the enrichment on a booking state whose slots are
already set, with a different freshly generated pair, changes nothing. -/
theorem c3_witness :
    (some ["10:30am", "2pm"] : Option (List String)) ≠ none ∧
    enrichBooking ("Monday", ["9am", "3pm"])
        { stage := "booking", proposedSlots := some ["10:30am", "2pm"],
          proposedDateLabel := some "Friday" }
      = { stage := "booking", proposedSlots := some ["10:30am", "2pm"],
          proposedDateLabel := some "Friday" } :=
  ⟨by decide,
    c3_slot_proposal_idempotent ("Monday", ["9am", "3pm"]) _ (Or.inl (by decide))⟩

/-- C4 (amended): for every non-empty input, `splitLongMessage` returns a
finite non-empty sequence, none of whose segments is the empty string, and
the sequence is either the one-element sequence holding the original reply
unchanged or has at least two segments.  (For the empty input the fallback
returns the one-element sequence containing the empty string, which is why
the original claim's "every segment is non-empty" needs the non-empty-input
proviso; see the counterexample.) -/
theorem c4_segmenter (m : String) (hm : m ≠ "") :
    splitLongMessage m ≠ [] ∧ "" ∉ splitLongMessage m ∧
    (splitLongMessage m = [m] ∨ 2 ≤ (splitLongMessage m).length) := by
  have hall := segLoop_ne_nil (splitSentencesAux false [] m.toList) [] 0
  rw [splitLongMessage_eq m]
  by_cases h : 1 < (segLoop (splitSentencesAux false [] m.toList) [] 0).length
  · rw [if_pos h]
    refine ⟨?_, ?_, Or.inr ?_⟩
    · intro hnil
      rw [List.map_eq_nil_iff] at hnil
      rw [hnil] at h
      simp at h
    · intro hmem
      rw [List.mem_map] at hmem
      obtain ⟨a, ha, hae⟩ := hmem
      apply hall a ha
      have hd := congrArg String.data hae
      simpa using hd
    · rw [List.length_map]
      omega
  · rw [if_neg h]
    refine ⟨by simp, ?_, Or.inl rfl⟩
    rw [List.mem_singleton]
    exact fun hh => hm hh.symm

/-- C4 counterexample: on the empty reply the final fallback returns the
one-element sequence containing the empty string, so the segmenter does
produce an empty segment. -/
theorem c4_counterexample :
    splitLongMessage "" = [""] ∧ (splitLongMessage "").any String.isEmpty = true := by
  refine ⟨by decide, by decide⟩

/-- C4 witness: a short non-empty reply is returned whole, and a long reply
is split into several non-empty segments. -/
theorem c4_witness :
    ("Hello there! How can I help you today?" : String) ≠ "" ∧
    splitLongMessage "Hello there! How can I help you today?" ≠ [] ∧
    "" ∉ splitLongMessage "Hello there! How can I help you today?" ∧
    (splitLongMessage "Hello there! How can I help you today?"
        = ["Hello there! How can I help you today?"] ∨
      2 ≤ (splitLongMessage "Hello there! How can I help you today?").length) :=
  ⟨by decide,
    (c4_segmenter "Hello there! How can I help you today?" (by decide)).1,
    (c4_segmenter "Hello there! How can I help you today?" (by decide)).2.1,
    (c4_segmenter "Hello there! How can I help you today?" (by decide)).2.2⟩

/-- C5 (amended): for part_007's `updateUserInfo` in the email-collection
stage, a first email-regex match sets `email` to that match and advances the
stage to `collecting_phone`, and no match holds the whole state; in
particular "reach me at a.b@example.co" yields the match "a.b@example.co"
and "no email here" yields no match.  The deployed English variant instead
advances to `collecting_city` on a successful match (see the
counterexample). -/
theorem c5_email_extraction (u : UserInfo) (m r : String) (e : List Char) :
    (u.stage = "collecting_email" →
      emailFirstMatch (strTrim m).toList = some e →
      updateUserInfo u m r =
        { u with email := some ⟨e⟩, stage := "collecting_phone" }) ∧
    (u.stage = "collecting_email" →
      emailFirstMatch (strTrim m).toList = none →
      updateUserInfo u m r = u) ∧
    emailFirstMatch (strTrim "reach me at a.b@example.co").toList
      = some "a.b@example.co".toList ∧
    emailFirstMatch (strTrim "no email here").toList = none := by
  refine ⟨?_, ?_, by decide, by decide⟩
  · intro h he
    rw [uui_collecting_email u m r h, he]
  · intro h he
    rw [uui_collecting_email u m r h, he]

/-- C5 counterexample: the deployed English transition function advances
email-collection to city-collection, not to phone-collection as the claim
states. -/
theorem c5_counterexample :
    (updateUserInfoEn { stage := "collecting_email" }
        "reach me at a.b@example.co" "r").stage = "collecting_city" ∧
    ("collecting_city" : String) ≠ "collecting_phone" := by
  refine ⟨by decide, by decide⟩

/-- C5 witness: the two concrete extraction examples of the claim, run
through part_007's transition function. -/
theorem c5_witness :
    updateUserInfo { stage := "collecting_email" } "reach me at a.b@example.co" "r"
      = { email := some "a.b@example.co", stage := "collecting_phone" } ∧
    updateUserInfo { stage := "collecting_email" } "no email here" "r"
      = { stage := "collecting_email" } := by
  constructor
  · exact ((c5_email_extraction { stage := "collecting_email" }
        "reach me at a.b@example.co" "r" "a.b@example.co".toList).1
        rfl (by decide)).trans (by decide)
  · exact (c5_email_extraction { stage := "collecting_email" }
        "no email here" "r" []).2.1 rfl (by decide)

/-- C6 (amended): for part_007's `updateUserInfo` in the phone-collection
stage, phone extraction returns the first block starting with `+`, `(`, `)`
or a digit followed by at least five further characters from digits,
whitespace, parentheses, `.`, `+`, `-` (a length-six threshold counting
spaces, not the claim's six non-space significant characters); on success
`phone` is the trimmed match and the stage advances to city-collection, on
failure the state holds; "+1 (555) 123-4567 is best" yields the digits and
advances, and a letters-and-spaces message holds. -/
theorem c6_phone_extraction (u : UserInfo) (m r : String) (p : List Char) :
    (u.stage = "collecting_phone" →
      phoneFirstMatch (strTrim m).toList = some p →
      updateUserInfo u m r =
        { u with phone := some ⟨trimL p⟩, stage := "collecting_city" }) ∧
    (u.stage = "collecting_phone" →
      phoneFirstMatch (strTrim m).toList = none →
      updateUserInfo u m r = u) ∧
    phoneFirstMatch (strTrim "+1 (555) 123-4567 is best").toList
      = some "+1 (555) 123-4567 ".toList ∧
    trimL "+1 (555) 123-4567 ".toList = "+1 (555) 123-4567".toList ∧
    phoneFirstMatch (strTrim "please call me anytime").toList = none := by
  refine ⟨?_, ?_, by decide, by decide, by decide⟩
  · intro h hph
    rw [uui_collecting_phone u m r h, hph]
  · intro h hph
    rw [uui_collecting_phone u m r h, hph]

/-- C6 counterexample: the message "1 2 3 4 5" has only five non-space
significant characters, so by the claim the extraction should be absent and
the stage should hold; the code's regex `/[+()\d][\d\s().+-]{5,}/` counts
spaces towards its {5,} threshold, accepts it, sets the phone and advances
to city-collection. -/
theorem c6_counterexample :
    (updateUserInfo { stage := "collecting_phone" } "1 2 3 4 5" "r").phone
      = some "1 2 3 4 5" ∧
    (updateUserInfo { stage := "collecting_phone" } "1 2 3 4 5" "r").stage
      = "collecting_city" ∧
    nonSpaceLen "1 2 3 4 5" = 5 ∧ ¬ (6 ≤ 5) := by
  refine ⟨by decide, by decide, by decide, by decide⟩

/-- C6 witness: the claim's concrete phone example, and a letters-and-spaces
message that holds. -/
theorem c6_witness :
    updateUserInfo { stage := "collecting_phone" } "+1 (555) 123-4567 is best" "r"
      = { phone := some "+1 (555) 123-4567", stage := "collecting_city" } ∧
    updateUserInfo { stage := "collecting_phone" } "please call me anytime" "r"
      = { stage := "collecting_phone" } := by
  constructor
  · exact ((c6_phone_extraction { stage := "collecting_phone" }
        "+1 (555) 123-4567 is best" "r" "+1 (555) 123-4567 ".toList).1
        rfl (by decide)).trans (by decide)
  · exact (c6_phone_extraction { stage := "collecting_phone" }
        "please call me anytime" "r" []).2.1 rfl (by decide)

/-- C7 (amended): in the explaining stage, part_007's `updateUserInfo`
advances to `pitch_call` exactly when the lowercased trimmed message
contains one of "makes sense", "perfect", "got it", "yes", "sure", "ok",
and otherwise returns the state unchanged; the deployed English and
Portuguese variants instead advance directly to `collecting_phone` on their
own keyword sets ("yes"/"sure"/"okay" and "sim"/"claro"/"ok"), and hold
otherwise. -/
theorem c7_affirmative_gate (u : UserInfo) (m r : String)
    (h : u.stage = "explaining") :
    (affirmative (strLower (strTrim m)) = true →
      updateUserInfo u m r = { u with stage := "pitch_call" }) ∧
    (affirmative (strLower (strTrim m)) = false → updateUserInfo u m r = u) ∧
    (affirmativeEn (strLower m) = true →
      updateUserInfoEn u m r = { u with stage := "collecting_phone" }) ∧
    (affirmativeEn (strLower m) = false → updateUserInfoEn u m r = u) ∧
    (affirmativePt (strLower m) = true →
      updateUserInfoPt u m r = { u with stage := "collecting_phone" }) ∧
    (affirmativePt (strLower m) = false → updateUserInfoPt u m r = u) := by
  refine ⟨?_, ?_, ?_, ?_, ?_, ?_⟩ <;> intro ha
  · rw [uui_explaining u m r h, if_pos ha]
  · rw [uui_explaining u m r h, if_neg]
    simp [ha]
  · rw [uuiEn_explaining u m r h, if_pos ha]
  · rw [uuiEn_explaining u m r h, if_neg]
    simp [ha]
  · rw [uuiPt_explaining u m r h, if_pos ha]
  · rw [uuiPt_explaining u m r h, if_neg]
    simp [ha]

/-- C7 counterexample: on the affirmative message "yes" the deployed English
transition function advances explaining to phone-collection, not to the
call-pitch stage as the claim states. -/
theorem c7_counterexample :
    (updateUserInfoEn { stage := "explaining" } "yes" "r").stage
      = "collecting_phone" ∧
    ("collecting_phone" : String) ≠ "pitch_call" := by
  refine ⟨by decide, by decide⟩

/-- C7 witness: "yes" advances part_007's engine to `pitch_call` and the
deployed English engine to `collecting_phone`; a non-affirmative reply holds
part_007's engine; "yes" is not a Portuguese keyword, so the Portuguese
engine holds on it. -/
theorem c7_witness :
    updateUserInfo { stage := "explaining" } "yes" "r" = { stage := "pitch_call" } ∧
    updateUserInfoEn { stage := "explaining" } "yes" "r"
      = { stage := "collecting_phone" } ∧
    updateUserInfoPt { stage := "explaining" } "yes" "r" = { stage := "explaining" } ∧
    updateUserInfo { stage := "explaining" } "hmm, I need to think" "r"
      = { stage := "explaining" } := by
  refine ⟨?_, ?_, ?_, ?_⟩
  · exact ((c7_affirmative_gate { stage := "explaining" } "yes" "r" rfl).1
      (by decide)).trans (by decide)
  · exact ((c7_affirmative_gate { stage := "explaining" } "yes" "r" rfl).2.2.1
      (by decide)).trans (by decide)
  · exact (c7_affirmative_gate { stage := "explaining" } "yes" "r" rfl).2.2.2.2.2
      (by decide)
  · exact (c7_affirmative_gate { stage := "explaining" } "hmm, I need to think"
      "r" rfl).2.1 (by decide)

/-- C8 (amended): part_007's `updateUserInfo` never fails on any stage
value: a stage outside the known eleven-member enumeration falls through the
switch and the state is returned unchanged, a silent no-op rather than the
invalid-state failure the claim requires (the function is total, so
in-enumeration stages raise no error either). -/
theorem c8_unknown_stage_noop (u : UserInfo) (m r : String)
    (h : u.stage ∉ knownStages) : updateUserInfo u m r = u :=
  uui_unknown u m r h

/-- C8 counterexample: an out-of-enumeration stage is passed through
unchanged as a no-op — the engine does not fail on it, contradicting the
claimed invalid-state failure. -/
theorem c8_counterexample :
    "bogus_stage" ∉ knownStages ∧
    updateUserInfo { stage := "bogus_stage" } "hello" "r"
      = { stage := "bogus_stage" } := by
  refine ⟨by decide, by decide⟩

/-- C8 witness: the no-op on a concrete unknown stage value. -/
theorem c8_witness :
    "corrupt" ∉ knownStages ∧
    updateUserInfo { stage := "corrupt" } "hi" "r" = { stage := "corrupt" } :=
  ⟨by decide, c8_unknown_stage_noop { stage := "corrupt" } "hi" "r" (by decide)⟩

/-- C9: the confirmed stage is absorbing for part_007's `updateUserInfo`
(explicit no-op case) and for the deployed English `updateUserInfo` (no
switch case, so the copied state falls through unchanged): every field of
the returned state equals the input's. -/
theorem c9_confirmed_absorbing (u : UserInfo) (m r : String)
    (h : u.stage = "confirmed") :
    updateUserInfo u m r = u ∧ updateUserInfoEn u m r = u :=
  ⟨uui_confirmed u m r h, uuiEn_confirmed u m r h⟩

/-- C9 witness: a fully populated confirmed state is returned unchanged by
both transition functions. -/
theorem c9_witness :
    updateUserInfo
        { stage := "confirmed", name := some "Alex", email := some "a@b.co",
          phone := some "555-0100", city := some "Austin",
          leadId := some "L1", appointmentLabel := some "Friday at 2pm" }
        "anything else?" "r"
      = { stage := "confirmed", name := some "Alex", email := some "a@b.co",
          phone := some "555-0100", city := some "Austin",
          leadId := some "L1", appointmentLabel := some "Friday at 2pm" } ∧
    updateUserInfoEn
        { stage := "confirmed", name := some "Alex", email := some "a@b.co",
          phone := some "555-0100", city := some "Austin",
          leadId := some "L1", appointmentLabel := some "Friday at 2pm" }
        "anything else?" "r"
      = { stage := "confirmed", name := some "Alex", email := some "a@b.co",
          phone := some "555-0100", city := some "Austin",
          leadId := some "L1", appointmentLabel := some "Friday at 2pm" } :=
  c9_confirmed_absorbing
    { stage := "confirmed", name := some "Alex", email := some "a@b.co",
      phone := some "555-0100", city := some "Austin",
      leadId := some "L1", appointmentLabel := some "Friday at 2pm" }
    "anything else?" "r" rfl

/-- C10: none of the three transition functions reads its generated-reply
argument, so the next lead state is a deterministic function of the prior
state and the visitor message alone: replacing the reply by any other reply
yields the identical state. -/
theorem c10_reply_independent (u : UserInfo) (m r1 r2 : String) :
    updateUserInfo u m r1 = updateUserInfo u m r2 ∧
    updateUserInfoEn u m r1 = updateUserInfoEn u m r2 ∧
    updateUserInfoPt u m r1 = updateUserInfoPt u m r2 :=
  ⟨rfl, rfl, rfl⟩
